import Mathlib

/-!
Verification of the authentication service in `service/user.go`
(`go-kit-learn`): registration with hashed credentials, login with
session creation, logout, and session-derived template-render contexts.

The Go service state is two in-memory maps, `users` and `sessions`,
both mutated in place through Go's reference-typed maps; the embedding
passes the state explicitly and models each map as an association list
(Go map lookup/insert/delete correspond to `List.lookup`, key-absent
cons, and key filter).

External calls the service makes (`bcrypt`, `uuid`, and the repository's
`CreateToken`/`ParseToken`, which are not part of the file above) are
modelled as an explicit environment of pure functions; the concrete
environment `specEnv` instantiates them following the design document.
-/

namespace GoKitLearn

/-- The failure kinds of the service, one per distinct error the Go code
returns.  The Go code produces them through `fmt.Errorf`; the constructors
correspond, in order, to the messages "user already registered",
"error while hashing pass: %w", "user not registered",
"error while checking passwords: %w", "error while creating token: %w",
"error while parsing token: %w", and the two "session not registered"
messages. -/
inductive SvcError where
  | alreadyRegistered
  | hashingFailure
  | userNotFound
  | passwordMismatch
  | tokenCreationFailure
  | invalidToken
  | sessionNotFound
  deriving DecidableEq, Repr

/-- Go constant `MainTemplate = "main.gohtml"`. -/
def MainTemplate : String := "main.gohtml"

/-- Go struct `UserFields`. -/
structure UserFields where
  username : String
  hashedPassword : String
  deriving DecidableEq, Repr

/-- Go struct `TemplateMetadata`. -/
structure TemplateMetadata where
  name : String
  deriving DecidableEq, Repr

/-- Go struct `TemplateVariables`; the Go zero value has every field
empty and the `ErrorMessage` field `nil` (here `none`). -/
structure TemplateVariables where
  name : String
  loginMessage : String
  errorMessage : Option SvcError
  session : String
  user : String
  deriving DecidableEq, Repr

/-- Go struct `TemplateRender` (the Go field `Variables` is named
`vars` here, since `variables` is reserved in Lean). -/
structure TemplateRender where
  metadata : TemplateMetadata
  vars : TemplateVariables
  deriving DecidableEq, Repr

/-- Go struct `userService`: the two maps, plus a counter that
determinises `uuid.New()` (the n-th login draws the n-th identifier from
the environment's generator). -/
structure userService where
  users : List (String × UserFields)
  sessions : List (String × String)
  nextSessionId : Nat
  deriving DecidableEq, Repr

/-- The external functions the service calls, as pure functions:
`hashValue`/`checkPasswordHash` wrap bcrypt (a hash may fail, returning
`none`; verification either matches or not), `createToken`/`ParseToken`
are the repository's token codec (not part of `service/user.go`), and
`genSessionId` determinises `uuid.New().String()`. -/
structure Env where
  hashValue : String → Option String
  checkPasswordHash : String → String → Bool
  createToken : String → Option String
  parseToken : String → Option String
  genSessionId : Nat → String

/-- The Go zero value `TemplateVariables{}`. -/
def emptyVariables : TemplateVariables := ⟨"", "", none, "", ""⟩

/-- The anonymous render context every non-success branch of
`SendMainTemplateData` builds: main template name, zero-value variables. -/
def anonymousRender : TemplateRender := ⟨⟨MainTemplate⟩, emptyVariables⟩

/-- Go's `unicode.IsSpace` restricted to the Latin-1 range, the
characters `strings.TrimSpace` strips. -/
def goIsSpace (c : Char) : Bool :=
  c = ' ' || c = '\t' || c = '\n' || c = '\x0b' || c = '\x0c' || c = '\r' ||
    c = '\x85' || c = '\xa0'

/-- The condition `strings.TrimSpace(token) == ""`: every character of
the token is whitespace. -/
def trimSpaceIsEmpty (s : String) : Bool := s.toList.all goIsSpace

/-- `NewUserService`: empty maps (and the identifier counter at 0). -/
def NewUserService : userService := ⟨[], [], 0⟩

/-- Go method `HealthCheck`. -/
def healthCheck (_u : userService) : String := "ok"

/-- Go method `SendMainTemplateData`.  The receiver is read-only (the Go
method only reads the maps), so no state is returned; like the Go
function it returns a `TemplateRender` together with an optional error. -/
def sendMainTemplateData (env : Env) (u : userService) (token : String) :
    TemplateRender × Option SvcError :=
  if trimSpaceIsEmpty token then
    (anonymousRender, none)
  else
    match env.parseToken token with
    | none => (anonymousRender, some SvcError.invalidToken)
    | some sessionID =>
      match u.sessions.lookup sessionID with
      | none => (anonymousRender, some SvcError.sessionNotFound)
      | some user => (⟨⟨MainTemplate⟩, ⟨"", "", none, token, user⟩⟩, none)

/-- Go method `Register`: existence check on the `users` map first, then
the password hash, then the insert. -/
def register (env : Env) (u : userService) (user pass : String) :
    Except SvcError String × userService :=
  if (u.users.lookup user).isSome then
    (Except.error SvcError.alreadyRegistered, u)
  else
    match env.hashValue pass with
    | none => (Except.error SvcError.hashingFailure, u)
    | some hashedPass =>
      (Except.ok "REGISTER SUCCESSFUL",
        ⟨(user, ⟨user, hashedPass⟩) :: u.users, u.sessions, u.nextSessionId⟩)

/-- Go method `Login`: user lookup, password verification, then the
session insert `u.sessions[sessionID] = user` followed by `CreateToken`;
as in the Go code the session entry is inserted before the token is
created, so a `CreateToken` failure returns with the new session still
in the map. -/
def login (env : Env) (u : userService) (user pass : String) :
    Except SvcError String × userService :=
  match u.users.lookup user with
  | none => (Except.error SvcError.userNotFound, u)
  | some userFields =>
    if env.checkPasswordHash pass userFields.hashedPassword then
      let sessionID := env.genSessionId u.nextSessionId
      let u2 : userService :=
        ⟨u.users, (sessionID, user) :: u.sessions, u.nextSessionId + 1⟩
      match env.createToken sessionID with
      | none => (Except.error SvcError.tokenCreationFailure, u2)
      | some token => (Except.ok token, u2)
    else
      (Except.error SvcError.passwordMismatch, u)

/-- Go method `Logout`: token decode, session existence check, delete. -/
def logout (env : Env) (u : userService) (token : String) :
    Option SvcError × userService :=
  match env.parseToken token with
  | none => (some SvcError.invalidToken, u)
  | some sessionID =>
    match u.sessions.lookup sessionID with
    | none => (some SvcError.sessionNotFound, u)
    | some _ =>
      (none, ⟨u.users, u.sessions.filter (fun p => p.1 != sessionID),
        u.nextSessionId⟩)

/-- Modelled from the spec: the Password Hasher's `Hash` (§4.1), whose
implementation (bcrypt) is outside the embedded file; a deterministic
stand-in that always completes. -/
def specHashValue (pass : String) : Option String :=
  some ("hashed:" ++ pass)

/-- Modelled from the spec: the Password Hasher's `Verify` (§4.1)
recomputes and compares against the digest. -/
def specCheckPasswordHash (pass digest : String) : Bool :=
  digest == "hashed:" ++ pass

/-- Modelled from the spec: the Token Codec's `Encode` (§4.4), a total
deterministic injection from session identifiers to token strings;
`CreateToken` is repository code not present in the embedded file. -/
def specCreateToken (sessionID : String) : Option String :=
  some ("token:" ++ sessionID)

/-- Modelled from the spec: the Token Codec's `Decode` (§4.4), inverting
`Encode` on its image and failing on any other string; `ParseToken` is
repository code not present in the embedded file. -/
def specParseToken (token : String) : Option String :=
  match token.toList with
  | 't' :: 'o' :: 'k' :: 'e' :: 'n' :: ':' :: rest => some (String.mk rest)
  | _ => none

/-- Modelled from the spec: the freshly generated session identifier of
§3 (`uuid.New().String()`), determinised by the draw counter. -/
def specGenSessionId (n : Nat) : String := "uuid-" ++ toString n

/-- The concrete environment assembled from the spec-modelled external
functions. -/
def specEnv : Env :=
  ⟨specHashValue, specCheckPasswordHash, specCreateToken, specParseToken,
    specGenSessionId⟩

/-- An environment whose password hasher always fails (the spec's
`HashingFailure`, e.g. resource exhaustion, §4.1), used to observe the
evaluation order inside `Register`. -/
def failingHashEnv : Env :=
  ⟨fun _ => none, specCheckPasswordHash, specCreateToken, specParseToken,
    specGenSessionId⟩

/-- A service state in which the user "alice" is already registered. -/
def aliceRegistered : userService :=
  ⟨[("alice", ⟨"alice", "hashed:pw"⟩)], [], 0⟩

theorem lookup_filter_ne_self (l : List (String × String)) (k : String) :
    (l.filter (fun p => p.1 != k)).lookup k = none := by
  induction l with
  | nil => rfl
  | cons hd tl ih =>
    by_cases h : hd.1 = k
    · have hc : (hd.1 != k) = false := by simp [bne, h]
      simp only [List.filter, hc]
      exact ih
    · have hc : (hd.1 != k) = true := by simp [bne, h]
      have hb : (k == hd.1) = false := by
        simp only [beq_eq_false_iff_ne]
        exact fun he => h he.symm
      simp only [List.filter, hc, List.lookup, hb]
      exact ih

/-- C10: every `TemplateRender` returned by `SendMainTemplateData`, on
every path (blank token, decode failure, unknown session, success), has
`Metadata.Name` equal to the constant `MainTemplate = "main.gohtml"`. -/
theorem sendMainTemplateData_metadata_name (env : Env) (u : userService)
    (token : String) :
    (sendMainTemplateData env u token).1.metadata.name = MainTemplate ∧
      MainTemplate = "main.gohtml" := by
  refine ⟨?_, rfl⟩
  unfold sendMainTemplateData
  split
  · rfl
  · split
    · rfl
    · split
      · rfl
      · rfl

/-- C3: for every service state, `SendMainTemplateData` on an empty or
whitespace-only token succeeds (no error) and returns the anonymous
context: main template name, empty session, user and error fields. -/
theorem sendMainTemplateData_blank_token_anonymous (env : Env)
    (u : userService) (token : String)
    (hblank : trimSpaceIsEmpty token = true) :
    sendMainTemplateData env u token =
      (⟨⟨MainTemplate⟩, ⟨"", "", none, "", ""⟩⟩, none) := by
  unfold sendMainTemplateData
  simp [hblank, anonymousRender, emptyVariables]

/-- C3 witness: a whitespace-only token on a state with a registration
and a live session still yields the anonymous context with no error. -/
theorem sendMainTemplateData_blank_token_anonymous_witness :
    trimSpaceIsEmpty " " = true ∧
    sendMainTemplateData specEnv
        ⟨[("bob", ⟨"bob", "hashed:pw"⟩)], [("uuid-0", "bob")], 1⟩ " " =
      (⟨⟨MainTemplate⟩, ⟨"", "", none, "", ""⟩⟩, none) :=
  ⟨by decide,
    sendMainTemplateData_blank_token_anonymous specEnv
      ⟨[("bob", ⟨"bob", "hashed:pw"⟩)], [("uuid-0", "bob")], 1⟩ " "
      (by decide)⟩

/-- C7: logging in as a registered user with a password that does not
verify against the stored hash fails with `PasswordMismatch`, returns no
token (the result is an error, not a token), and leaves the whole state
— in particular the sessions map's contents and hence its size —
unchanged. -/
theorem login_wrong_password_mismatch (env : Env) (u : userService)
    (user pass : String) (f : UserFields)
    (hu : u.users.lookup user = some f)
    (hv : env.checkPasswordHash pass f.hashedPassword = false) :
    (login env u user pass).1 = Except.error SvcError.passwordMismatch ∧
    (login env u user pass).2 = u ∧
    (login env u user pass).2.sessions = u.sessions := by
  unfold login
  rw [hu]
  simp [hv]

/-- C7 witness: "alice" is registered with the hash of "pw"; logging in
with "wrong" fails with a password mismatch and changes nothing. -/
theorem login_wrong_password_mismatch_witness :
    aliceRegistered.users.lookup "alice" = some ⟨"alice", "hashed:pw"⟩ ∧
    specEnv.checkPasswordHash "wrong" "hashed:pw" = false ∧
    (login specEnv aliceRegistered "alice" "wrong").1 =
      Except.error SvcError.passwordMismatch ∧
    (login specEnv aliceRegistered "alice" "wrong").2 = aliceRegistered :=
  ⟨by decide, by decide,
    (login_wrong_password_mismatch specEnv aliceRegistered "alice" "wrong"
      ⟨"alice", "hashed:pw"⟩ (by decide) (by decide)).1,
    (login_wrong_password_mismatch specEnv aliceRegistered "alice" "wrong"
      ⟨"alice", "hashed:pw"⟩ (by decide) (by decide)).2.1⟩

/-- C8: on a non-blank token, when the token fails to decode or the
decoded session identifier is not in the sessions map,
`SendMainTemplateData` returns the anonymous-shaped context (main
template name, zero-value variables) paired with a non-nil error. -/
theorem sendMainTemplateData_failure_anonymous_with_error (env : Env)
    (u : userService) (token : String)
    (hblank : trimSpaceIsEmpty token = false)
    (hfail : env.parseToken token = none ∨
      ∃ sid, env.parseToken token = some sid ∧
        u.sessions.lookup sid = none) :
    (sendMainTemplateData env u token).1 = anonymousRender ∧
    (sendMainTemplateData env u token).2.isSome := by
  unfold sendMainTemplateData
  rcases hfail with hp | ⟨sid, hp, hs⟩
  · simp [hblank, hp]
  · simp [hblank, hp, hs]

/-- C8 witness: the non-blank token "garbage" fails to decode, and the
service still hands back the anonymous context together with an error. -/
theorem sendMainTemplateData_failure_anonymous_with_error_witness :
    trimSpaceIsEmpty "garbage" = false ∧
    specEnv.parseToken "garbage" = none ∧
    (sendMainTemplateData specEnv NewUserService "garbage").1 =
      anonymousRender ∧
    (sendMainTemplateData specEnv NewUserService "garbage").2.isSome :=
  ⟨by decide, by decide,
    (sendMainTemplateData_failure_anonymous_with_error specEnv
      NewUserService "garbage" (by decide) (Or.inl (by decide))).1,
    (sendMainTemplateData_failure_anonymous_with_error specEnv
      NewUserService "garbage" (by decide) (Or.inl (by decide))).2⟩

/-- C1: under the design's token codec, whose `Encode` is total (§4.4:
"a total, deterministic bijection"; `CreateToken` itself is repository
code outside `service/user.go`), every `Login` call that returns an
error leaves the sessions map unchanged: the only reachable failure
paths are the user-not-found and password-mismatch returns, both taken
before the session insert. -/
theorem login_failure_sessions_unchanged (env : Env) (u : userService)
    (user pass : String) (e : SvcError)
    (htotal : ∀ s, (env.createToken s).isSome)
    (herr : (login env u user pass).1 = Except.error e) :
    (login env u user pass).2.sessions = u.sessions := by
  unfold login at herr ⊢
  cases hl : u.users.lookup user with
  | none => rfl
  | some f =>
    rw [hl] at herr
    by_cases hv : env.checkPasswordHash pass f.hashedPassword
    · have ht := htotal (env.genSessionId u.nextSessionId)
      cases hc : env.createToken (env.genSessionId u.nextSessionId) with
      | none => rw [hc] at ht; simp at ht
      | some t => simp [hv, hc] at herr
    · simp [hv]

/-- C1 witness: with the spec-modelled (total) codec, a login for an
unregistered user fails and the sessions map is exactly as before. -/
theorem login_failure_sessions_unchanged_witness :
    (login specEnv aliceRegistered "carol" "pw").1 =
      Except.error SvcError.userNotFound ∧
    (login specEnv aliceRegistered "carol" "pw").2.sessions =
      aliceRegistered.sessions :=
  ⟨by rfl,
    login_failure_sessions_unchanged specEnv aliceRegistered "carol" "pw"
      SvcError.userNotFound (fun _ => rfl) (by rfl)⟩

/-- C9: a user entry already present in the users map survives every
operation unchanged.  `Register` only inserts when its username is
absent, `Login` and `Logout` never touch the users map, and
`SendMainTemplateData` and `HealthCheck` only read the state (in this
embedding they return no state at all, mirroring the Go methods, which
perform no map writes), so the three state-returning operations are the
ones with something to prove. -/
theorem users_entries_never_mutated (env : Env) (u : userService)
    (k : String) (v : UserFields) (user pass token : String)
    (hk : u.users.lookup k = some v) :
    (register env u user pass).2.users.lookup k = some v ∧
    (login env u user pass).2.users.lookup k = some v ∧
    (logout env u token).2.users.lookup k = some v := by
  refine ⟨?_, ?_, ?_⟩
  · unfold register
    by_cases hreg : (u.users.lookup user).isSome = true
    · simp [hreg, hk]
    · cases hh : env.hashValue pass with
      | none => simp [hreg, hh, hk]
      | some hp =>
        have hne : (k == user) = false := by
          simp only [beq_eq_false_iff_ne]
          intro he
          rw [he] at hk
          rw [hk] at hreg
          exact hreg rfl
        simp only [hreg, hh]
        simp [List.lookup, hne, hk]
  · unfold login
    cases hl : u.users.lookup user with
    | none => simpa using hk
    | some f =>
      by_cases hv : env.checkPasswordHash pass f.hashedPassword
      · cases hc : env.createToken (env.genSessionId u.nextSessionId) with
        | none => simp [hv, hc, hk]
        | some t => simp [hv, hc, hk]
      · simp [hv, hk]
  · unfold logout
    cases hp : env.parseToken token with
    | none => simpa using hk
    | some sid =>
      cases hs : u.sessions.lookup sid with
      | none => simp [hs, hk]
      | some w => simp [hs, hk]

/-- C9 witness: with "alice" registered, a fresh registration of "bob",
a login and a logout all keep alice's stored entry intact. -/
theorem users_entries_never_mutated_witness :
    aliceRegistered.users.lookup "alice" = some ⟨"alice", "hashed:pw"⟩ ∧
    (register specEnv aliceRegistered "bob" "pw2").2.users.lookup "alice" =
      some ⟨"alice", "hashed:pw"⟩ ∧
    (login specEnv aliceRegistered "bob" "pw2").2.users.lookup "alice" =
      some ⟨"alice", "hashed:pw"⟩ ∧
    (logout specEnv aliceRegistered "tok").2.users.lookup "alice" =
      some ⟨"alice", "hashed:pw"⟩ :=
  ⟨by decide,
    (users_entries_never_mutated specEnv aliceRegistered "alice"
      ⟨"alice", "hashed:pw"⟩ "bob" "pw2" "tok" (by decide)).1,
    (users_entries_never_mutated specEnv aliceRegistered "alice"
      ⟨"alice", "hashed:pw"⟩ "bob" "pw2" "tok" (by decide)).2.1,
    (users_entries_never_mutated specEnv aliceRegistered "alice"
      ⟨"alice", "hashed:pw"⟩ "bob" "pw2" "tok" (by decide)).2.2⟩

/-- C4: after a first successful `Register(u, p1)`, a second
`Register(u, p2)` fails with `AlreadyRegistered`, leaves the state of
the first call untouched, and the credential stored by the first call
(the hash of `p1`) is still the record for `u`. -/
theorem register_twice_already_registered (env : Env) (u : userService)
    (user p1 p2 hp1 : String)
    (habs : u.users.lookup user = none)
    (hhash : env.hashValue p1 = some hp1) :
    (register env u user p1).1 = Except.ok "REGISTER SUCCESSFUL" ∧
    (register env (register env u user p1).2 user p2).1 =
      Except.error SvcError.alreadyRegistered ∧
    (register env (register env u user p1).2 user p2).2 =
      (register env u user p1).2 ∧
    (register env (register env u user p1).2 user p2).2.users.lookup user =
      some ⟨user, hp1⟩ := by
  have h1 : register env u user p1 =
      (Except.ok "REGISTER SUCCESSFUL",
        ⟨(user, ⟨user, hp1⟩) :: u.users, u.sessions, u.nextSessionId⟩) := by
    unfold register
    simp [habs, hhash]
  rw [h1]
  have h2 : register env
      (⟨(user, ⟨user, hp1⟩) :: u.users, u.sessions, u.nextSessionId⟩ :
        userService) user p2 =
      (Except.error SvcError.alreadyRegistered,
        ⟨(user, ⟨user, hp1⟩) :: u.users, u.sessions, u.nextSessionId⟩) := by
    unfold register
    simp [List.lookup]
  rw [h2]
  refine ⟨rfl, rfl, rfl, ?_⟩
  simp [List.lookup]

/-- C4 witness: registering "carol" twice on the empty service. -/
theorem register_twice_already_registered_witness :
    (register specEnv NewUserService "carol" "p1").1 =
      Except.ok "REGISTER SUCCESSFUL" ∧
    (register specEnv (register specEnv NewUserService "carol" "p1").2
        "carol" "p2").1 = Except.error SvcError.alreadyRegistered ∧
    (register specEnv (register specEnv NewUserService "carol" "p1").2
        "carol" "p2").2.users.lookup "carol" =
      some ⟨"carol", "hashed:p1"⟩ :=
  ⟨(register_twice_already_registered specEnv NewUserService "carol"
      "p1" "p2" "hashed:p1" (by decide) (by decide)).1,
   (register_twice_already_registered specEnv NewUserService "carol"
      "p1" "p2" "hashed:p1" (by decide) (by decide)).2.1,
   (register_twice_already_registered specEnv NewUserService "carol"
      "p1" "p2" "hashed:p1" (by decide) (by decide)).2.2.2⟩

/-- C2: on the fresh service, under the design's environment contract —
hashing completes, verification accepts the hash it computed (§4.1),
and the codec turns the first generated session identifier into a
decodable, non-blank token (§4.4) — `Register` followed by `Login` with
the same credentials succeeds, and rendering with the returned token
puts that username into the context's `User` field. -/
theorem register_login_render_roundtrip (env : Env)
    (user pass hp tok : String)
    (hhash : env.hashValue pass = some hp)
    (hverify : env.checkPasswordHash pass hp = true)
    (htok : env.createToken (env.genSessionId 0) = some tok)
    (hparse : env.parseToken tok = some (env.genSessionId 0))
    (hblank : trimSpaceIsEmpty tok = false) :
    (register env NewUserService user pass).1 =
      Except.ok "REGISTER SUCCESSFUL" ∧
    (login env (register env NewUserService user pass).2 user pass).1 =
      Except.ok tok ∧
    (sendMainTemplateData env
        (login env (register env NewUserService user pass).2 user pass).2
        tok).1.vars.user = user := by
  have hreg : register env NewUserService user pass =
      (Except.ok "REGISTER SUCCESSFUL",
        ⟨[(user, ⟨user, hp⟩)], [], 0⟩) := by
    unfold register NewUserService
    simp [List.lookup, hhash]
  have hlog : login env
      (⟨[(user, ⟨user, hp⟩)], [], 0⟩ : userService) user pass =
      (Except.ok tok,
        ⟨[(user, ⟨user, hp⟩)], [(env.genSessionId 0, user)], 1⟩) := by
    unfold login
    simp [List.lookup, hverify, htok]
  have hsend : sendMainTemplateData env
      (⟨[(user, ⟨user, hp⟩)], [(env.genSessionId 0, user)], 1⟩ :
        userService) tok =
      (⟨⟨MainTemplate⟩, ⟨"", "", none, tok, user⟩⟩, none) := by
    unfold sendMainTemplateData
    simp [hblank, hparse, List.lookup]
  simp [hreg, hlog, hsend]

/-- C2 witness: the spec's own scenario, `Register("alice", "s3cret")`
then `Login("alice", "s3cret")` then rendering with the token. -/
theorem register_login_render_roundtrip_witness :
    (register specEnv NewUserService "alice" "s3cret").1 =
      Except.ok "REGISTER SUCCESSFUL" ∧
    (login specEnv (register specEnv NewUserService "alice" "s3cret").2
        "alice" "s3cret").1 = Except.ok "token:uuid-0" ∧
    (sendMainTemplateData specEnv
        (login specEnv (register specEnv NewUserService "alice" "s3cret").2
          "alice" "s3cret").2 "token:uuid-0").1.vars.user = "alice" :=
  register_login_render_roundtrip specEnv "alice" "s3cret"
    "hashed:s3cret" "token:uuid-0" (by decide) (by decide) (by decide)
    (by decide) (by decide)

/-- C5 counterexample: with "alice" already registered and a hasher
that always fails, `Register("alice", "pw2")` reports
`AlreadyRegistered` and not a hashing failure: the existence check runs
before the hash, so the reported failure does not follow from the
hash-then-create order the claim states. -/
theorem register_hash_order_counterexample :
    (register failingHashEnv aliceRegistered "alice" "pw2").1 =
      Except.error SvcError.alreadyRegistered ∧
    (register failingHashEnv aliceRegistered "alice" "pw2").1 ≠
      Except.error SvcError.hashingFailure := by
  refine ⟨rfl, ?_⟩
  intro h
  simp [register, failingHashEnv, aliceRegistered, List.lookup] at h

/-- C5 amended: `Register` performs the User Store existence check
first and hashes only when the username is free; in particular, when
the username is already registered, `AlreadyRegistered` is reported
even if hashing would fail, and a hashing failure surfaces only for a
free username. -/
theorem register_existence_check_before_hash (env : Env)
    (u : userService) (user pass : String) :
    ((u.users.lookup user).isSome →
      register env u user pass =
        (Except.error SvcError.alreadyRegistered, u)) ∧
    (u.users.lookup user = none → env.hashValue pass = none →
      register env u user pass =
        (Except.error SvcError.hashingFailure, u)) := by
  constructor
  · intro h
    unfold register
    simp [h]
  · intro h hh
    unfold register
    simp [h, hh]

/-- C5 amended witness: the already-registered case under the failing
hasher, and the hashing-failure case for a free username. -/
theorem register_existence_check_before_hash_witness :
    register failingHashEnv aliceRegistered "alice" "pw2" =
      (Except.error SvcError.alreadyRegistered, aliceRegistered) ∧
    register failingHashEnv NewUserService "bob" "pw" =
      (Except.error SvcError.hashingFailure, NewUserService) :=
  ⟨(register_existence_check_before_hash failingHashEnv aliceRegistered
      "alice" "pw2").1 (by decide),
   (register_existence_check_before_hash failingHashEnv NewUserService
      "bob" "pw").2 (by decide) (by rfl)⟩

/-- C6: a (non-blank, as every codec-produced token is) token whose
`Logout` succeeds cannot be used again: the session is deleted, so
`SendMainTemplateData` on the same token returns the `SessionNotFound`
error and a second `Logout` fails with `SessionNotFound`. -/
theorem logout_then_session_not_found (env : Env) (u : userService)
    (token : String)
    (hblank : trimSpaceIsEmpty token = false)
    (hsucc : (logout env u token).1 = none) :
    (sendMainTemplateData env (logout env u token).2 token).2 =
      some SvcError.sessionNotFound ∧
    (logout env (logout env u token).2 token).1 =
      some SvcError.sessionNotFound := by
  cases hp : env.parseToken token with
  | none =>
    exfalso
    unfold logout at hsucc
    rw [hp] at hsucc
    simp at hsucc
  | some sid =>
    cases hs : u.sessions.lookup sid with
    | none =>
      exfalso
      unfold logout at hsucc
      rw [hp] at hsucc
      simp [hs] at hsucc
    | some w =>
      have hlog : logout env u token =
          (none, ⟨u.users, u.sessions.filter (fun p => p.1 != sid),
            u.nextSessionId⟩) := by
        unfold logout
        rw [hp]
        simp [hs]
      rw [hlog]
      constructor
      · unfold sendMainTemplateData
        simp [hblank, hp, lookup_filter_ne_self]
      · unfold logout
        simp [hp, lookup_filter_ne_self]

/-- C6 witness: logging out the live session "uuid-0" through its token
succeeds; re-rendering and re-logging-out with the same token both
report `SessionNotFound`. -/
theorem logout_then_session_not_found_witness :
    (logout specEnv ⟨[], [("uuid-0", "alice")], 1⟩ "token:uuid-0").1 =
      none ∧
    (sendMainTemplateData specEnv
        (logout specEnv ⟨[], [("uuid-0", "alice")], 1⟩ "token:uuid-0").2
        "token:uuid-0").2 = some SvcError.sessionNotFound ∧
    (logout specEnv
        (logout specEnv ⟨[], [("uuid-0", "alice")], 1⟩ "token:uuid-0").2
        "token:uuid-0").1 = some SvcError.sessionNotFound :=
  ⟨by decide,
   (logout_then_session_not_found specEnv ⟨[], [("uuid-0", "alice")], 1⟩
      "token:uuid-0" (by decide) (by decide)).1,
   (logout_then_session_not_found specEnv ⟨[], [("uuid-0", "alice")], 1⟩
      "token:uuid-0" (by decide) (by decide)).2⟩

end GoKitLearn
